import Mathlib

/-!
Verification of the DiddyBorg / PicoBorgRev motor-controller driver.

The repository contains two drafts of the same I2C driver:
* `src/diddyborg/src/diddyborg/mod.rs` (embedded below in namespace `DMod`), and
* `src/picoborgrev/src/diddyborg/diddyborg.rs` (namespace `Pbr`).

Both share the command catalog of `src/diddyborg/src/diddyborg/command.rs`
and an identical `power_to_pwm` conversion.  We embed the pure decision
logic of these functions; the I2C transport is modelled as an oracle
recording the outcome of the single write and the single read a
transaction performs.

`f32` values are modelled by `F32`: an exact rational for finite values,
plus NaN and the two infinities.  Arithmetic on the finite fragment is
exact (the idealisation of f32 rounding); the special values follow IEEE
rules for the operations the driver uses (`abs`, multiplication by the
positive constant 255, comparisons, and Rust's saturating `as u8` cast).
-/

namespace DiddyBorgRs

/-- Model of Rust `f32`: exact rationals for finite values plus the IEEE
special values the driver's code paths distinguish. -/
inductive F32 where
  | finite : ℚ → F32
  | nan : F32
  | inf : F32
  | negInf : F32
deriving DecidableEq

/-- `f32::abs`: `|q|` on finite values, NaN stays NaN, both infinities map
to `+∞`. -/
def F32.abs : F32 → F32
  | .finite q => .finite |q|
  | .nan => .nan
  | .inf => .inf
  | .negInf => .inf

/-- Multiplication of an `f32` by the positive finite constant `c`
(used only with `c = PWM_MAX = 255`): exact on finite values,
`c * NaN = NaN`, `c * ±∞ = ±∞` for positive `c`. -/
def F32.constMul (c : ℚ) : F32 → F32
  | .finite q => .finite (c * q)
  | .nan => .nan
  | .inf => .inf
  | .negInf => .negInf

/-- IEEE `>` on `f32`: any comparison involving NaN is false. -/
def F32.gt : F32 → F32 → Bool
  | .finite a, .finite b => a > b
  | .finite _, .inf => false
  | .finite _, .negInf => true
  | .inf, .finite _ => true
  | .inf, .inf => false
  | .inf, .negInf => true
  | .negInf, _ => false
  | .nan, _ => false
  | _, .nan => false

/-- IEEE `>=` on `f32`: any comparison involving NaN is false. -/
def F32.ge : F32 → F32 → Bool
  | .finite a, .finite b => a ≥ b
  | .finite _, .inf => false
  | .finite _, .negInf => true
  | .inf, .nan => false
  | .inf, _ => true
  | .negInf, .negInf => true
  | .negInf, _ => false
  | .nan, _ => false
  | _, .nan => false

/-- Rust's saturating `as u8` cast on `f32`: truncate toward zero, clamp
into `0..=255`, NaN casts to 0. -/
def F32.toU8 : F32 → ℕ
  | .finite q => min 255 (Int.toNat ⌊q⌋)
  | .nan => 0
  | .inf => 255
  | .negInf => 0

/-- `const PWM_MAX: f32 = 255.0` (`mod.rs` line 11). -/
def PWM_MAX : ℚ := 255

/-- `const I2C_ID_PICOBORG_REV: u8 = 0x15` (`mod.rs` line 13). -/
def I2C_ID_PICOBORG_REV : ℕ := 0x15

/-- The command opcodes of `src/diddyborg/src/diddyborg/command.rs`. -/
inductive Command where
  | SetLed
  | GetLed
  | SetAFwd
  | SetARev
  | GetA
  | SetBFwd
  | SetBRev
  | GetB
  | AllOff
  | ResetEpo
  | GetEpo
  | SetEpoIgnore
  | GetEpoIgnore
  | GetDriveFault
  | SetAllFwd
  | SetAllRev
  | SetFailsafe
  | GetFailsafe
  | SetEncMode
  | GetEncMode
  | MoveAFwd
  | MoveARev
  | MoveBFwd
  | MoveBRev
  | MoveAllFwd
  | MoveAllRev
  | GetEncMoving
  | SetEncSpeed
  | GetEncSpeed
  | GetId
  | SetI2cAdd
deriving DecidableEq, Fintype

/-- `Command::value` (`command.rs` lines 87-121): the opcode-to-byte map. -/
def Command.value : Command → ℕ
  | .SetLed => 0x01
  | .GetLed => 0x02
  | .SetAFwd => 0x03
  | .SetARev => 0x04
  | .GetA => 0x05
  | .SetBFwd => 0x06
  | .SetBRev => 0x07
  | .GetB => 0x08
  | .AllOff => 0x09
  | .ResetEpo => 0x0A
  | .GetEpo => 0x0B
  | .SetEpoIgnore => 0x0C
  | .GetEpoIgnore => 0x0D
  | .GetDriveFault => 0x0E
  | .SetAllFwd => 0x0F
  | .SetAllRev => 0x10
  | .SetFailsafe => 0x11
  | .GetFailsafe => 0x12
  | .SetEncMode => 0x13
  | .GetEncMode => 0x14
  | .MoveAFwd => 0x15
  | .MoveARev => 0x16
  | .MoveBFwd => 0x17
  | .MoveBRev => 0x18
  | .MoveAllFwd => 0x19
  | .MoveAllRev => 0x1A
  | .GetEncMoving => 0x1B
  | .SetEncSpeed => 0x1C
  | .GetEncSpeed => 0x1D
  | .GetId => 0x99
  | .SetI2cAdd => 0xAA

/-- The payload/response value codes of `command.rs` lines 127-136. -/
inductive CommandValue where
  | Off
  | On
  | Fwd
  | Rev
deriving DecidableEq, Fintype

/-- `CommandValue::value` (`command.rs` lines 143-151). -/
def CommandValue.value : CommandValue → ℕ
  | .Off => 0x00
  | .On => 0x01
  | .Fwd => 0x01
  | .Rev => 0x02

/-- `power_to_pwm` (`mod.rs` lines 745-753 and `diddyborg.rs` lines
741-749, identical): `pwm = PWM_MAX * power.abs()`, clamp at `PWM_MAX`,
then `pwm as u8`. -/
def power_to_pwm (power : F32) : ℕ :=
  let pwm := F32.constMul PWM_MAX power.abs
  let pwm := if F32.gt pwm (F32.finite PWM_MAX) then F32.finite PWM_MAX else pwm
  pwm.toU8

/-- The 4-byte response buffer (`[u8; I2C_READ_LEN]` with
`I2C_READ_LEN = 4`).  Byte values are naturals; byte-range facts are
hypotheses where a claim needs them. -/
structure Buf4 where
  b0 : ℕ
  b1 : ℕ
  b2 : ℕ
  b3 : ℕ
deriving DecidableEq

/-- `[0; I2C_READ_LEN]`: the all-zero buffer. -/
def Buf4.zero : Buf4 := ⟨0, 0, 0, 0⟩

/-- The driver's error kinds, after `picoborgrev/src/error.rs`
(`I2C`, `CorruptedData`, `NotFound`).  The `diddyborg` draft's
`DiddyBorgError {}` unit struct collapses all three into one value; its
claims only distinguish success from failure, so the richer enum
refines it. -/
inductive DiddyBorgError where
  | i2c
  | corruptedData
  | notFound
deriving DecidableEq

/-- Oracle for one transaction on the underlying `I2CDevice`: the
outcome of the single `dev.write` call and, for read transactions, the
outcome of the single `dev.read` call (which on success fills the whole
4-byte buffer). -/
structure I2CDev where
  writeResult : Except Unit Unit
  readResult : Except Unit Buf4

/-- The driver session: exclusive transport handle plus the reusable
4-byte read buffer (`struct DiddyBorg`, `mod.rs` lines 23-28 /
`diddyborg.rs` lines 21-26). -/
structure DiddyBorg where
  dev : I2CDev
  read_buffer : Buf4

/-- `DiddyBorg::read` (`mod.rs` lines 698-710 / `diddyborg.rs` lines
697-707): write the single opcode byte, sleep `I2C_WAIT` (untimed in
this model), then read 4 bytes into the buffer; an error in either
transport step becomes a driver transport error and the buffer is left
as passed in. -/
def DiddyBorg.read (dev : I2CDev) (command : Command) (buffer : Buf4) :
    Except DiddyBorgError Unit × Buf4 :=
  match dev.writeResult with
  | .error _ => (.error .i2c, buffer)
  | .ok _ =>
    match dev.readResult with
    | .error _ => (.error .i2c, buffer)
    | .ok bytes => (.ok (), bytes)

/-- `raw_read` (`mod.rs` lines 639-645 / `diddyborg.rs` lines 637-643):
clear every byte of the reusable buffer to 0, then perform the
write-then-read transaction.  The incoming `read_buffer` is the
buffer's prior contents; they are discarded by the clearing step. -/
def raw_read (dev : I2CDev) (read_buffer : Buf4) (command : Command) :
    Except DiddyBorgError Unit × Buf4 :=
  let cleared : Buf4 := ⟨0, 0, 0, 0⟩
  DiddyBorg.read dev command cleared

/-- `DiddyBorg::write` / `raw_write` (`mod.rs` lines 659-662, 726-731):
one transport write of the frame; a transport failure is returned
directly. -/
def raw_write (dev : I2CDev) (data : List ℕ) : Except DiddyBorgError Unit :=
  match dev.writeResult with
  | .ok _ => .ok ()
  | .error _ => .error .i2c

/-- `get_diddyborg_id` (`mod.rs` lines 676-680 / `diddyborg.rs` lines
675-679): read 4 bytes with the `GetId` opcode into a fresh zero buffer
and return byte 1. -/
def get_diddyborg_id (dev : I2CDev) : Except DiddyBorgError ℕ :=
  match DiddyBorg.read dev Command.GetId Buf4.zero with
  | (.ok _, buffer) => .ok buffer.b1
  | (.error e, _) => .error e

/-- `DiddyBorg::new` (`mod.rs` lines 53-83 / `picoborgrev/src/linux.rs`
lines 30-53): open the transport (outcome `openResult`), read the
identity byte, and return a session exactly when it equals
`I2C_ID_PICOBORG_REV = 0x15`; any other identity byte yields the
identity-mismatch error (`NotFound`) and a transport failure is
propagated. -/
def DiddyBorg.new (openResult : Except Unit I2CDev) :
    Except DiddyBorgError DiddyBorg :=
  match openResult with
  | .error _ => .error .i2c
  | .ok dev =>
    match get_diddyborg_id dev with
    | .ok id =>
      if id = I2C_ID_PICOBORG_REV then
        .ok { dev := dev, read_buffer := Buf4.zero }
      else
        .error .notFound
    | .error e => .error e

/-- `set_motor1`'s wire frame (`mod.rs` lines 187-197 / `diddyborg.rs`
lines 141-151): forward opcode when `power >= 0.0` (false for NaN),
reverse opcode otherwise; payload `power_to_pwm power`. -/
def set_motor1_frame (power : F32) : List ℕ :=
  let command := if F32.ge power (F32.finite 0) then Command.SetBFwd else Command.SetBRev
  [command.value, power_to_pwm power]

/-- `set_motor2`'s wire frame (`mod.rs` lines 283-293 / `diddyborg.rs`
lines 239-249). -/
def set_motor2_frame (power : F32) : List ℕ :=
  let command := if F32.ge power (F32.finite 0) then Command.SetAFwd else Command.SetARev
  [command.value, power_to_pwm power]

/-- `set_motors`' wire frame (`mod.rs` lines 378-388 / `diddyborg.rs`
lines 336-346). -/
def set_motors_frame (power : F32) : List ℕ :=
  let command := if F32.ge power (F32.finite 0) then Command.SetAllFwd else Command.SetAllRev
  [command.value, power_to_pwm power]

/-- `set_motor1` (`mod.rs` lines 187-197): build the frame and write it. -/
def set_motor1 (self : DiddyBorg) (power : F32) : Except DiddyBorgError Unit :=
  raw_write self.dev (set_motor1_frame power)

/-! The `picoborgrev/src/diddyborg/diddyborg.rs` draft of the driver. -/

namespace Pbr

/-- `get_led` (`diddyborg.rs` lines 86-98): read with `GetLed`;
byte 1 = Off ↦ `Ok(false)`, byte 1 = On ↦ `Ok(true)`, anything else ↦
`CorruptedData`. -/
def get_led (self : DiddyBorg) : Except DiddyBorgError Bool × DiddyBorg :=
  match raw_read self.dev self.read_buffer Command.GetLed with
  | (.ok _, buffer) =>
    let state := buffer.b1
    (if state = CommandValue.Off.value then .ok false
     else if state = CommandValue.On.value then .ok true
     else .error .corruptedData,
     { self with read_buffer := buffer })
  | (.error e, buffer) => (.error e, { self with read_buffer := buffer })

/-- `get_epo` (`diddyborg.rs` lines 417-429): same decode with `GetEpo`. -/
def get_epo (self : DiddyBorg) : Except DiddyBorgError Bool × DiddyBorg :=
  match raw_read self.dev self.read_buffer Command.GetEpo with
  | (.ok _, buffer) =>
    let state := buffer.b1
    (if state = CommandValue.Off.value then .ok false
     else if state = CommandValue.On.value then .ok true
     else .error .corruptedData,
     { self with read_buffer := buffer })
  | (.error e, buffer) => (.error e, { self with read_buffer := buffer })

/-- `get_epo_ignore` (`diddyborg.rs` lines 487-499). -/
def get_epo_ignore (self : DiddyBorg) : Except DiddyBorgError Bool × DiddyBorg :=
  match raw_read self.dev self.read_buffer Command.GetEpoIgnore with
  | (.ok _, buffer) =>
    let state := buffer.b1
    (if state = CommandValue.Off.value then .ok false
     else if state = CommandValue.On.value then .ok true
     else .error .corruptedData,
     { self with read_buffer := buffer })
  | (.error e, buffer) => (.error e, { self with read_buffer := buffer })

/-- `get_comms_failsafe` (`diddyborg.rs` lines 560-572). -/
def get_comms_failsafe (self : DiddyBorg) : Except DiddyBorgError Bool × DiddyBorg :=
  match raw_read self.dev self.read_buffer Command.GetFailsafe with
  | (.ok _, buffer) =>
    let state := buffer.b1
    (if state = CommandValue.Off.value then .ok false
     else if state = CommandValue.On.value then .ok true
     else .error .corruptedData,
     { self with read_buffer := buffer })
  | (.error e, buffer) => (.error e, { self with read_buffer := buffer })

/-- `get_drive_fault` (`diddyborg.rs` lines 611-623). -/
def get_drive_fault (self : DiddyBorg) : Except DiddyBorgError Bool × DiddyBorg :=
  match raw_read self.dev self.read_buffer Command.GetDriveFault with
  | (.ok _, buffer) =>
    let state := buffer.b1
    (if state = CommandValue.Off.value then .ok false
     else if state = CommandValue.On.value then .ok true
     else .error .corruptedData,
     { self with read_buffer := buffer })
  | (.error e, buffer) => (.error e, { self with read_buffer := buffer })

/-- `get_motor1` (`diddyborg.rs` lines 186-200): read with `GetB`;
`power = byte2 as f32 / PWM_MAX`; byte 1 = Fwd ↦ `Ok(power)`,
byte 1 = Rev ↦ `Ok(-power)`, anything else ↦ `CorruptedData`. -/
def get_motor1 (self : DiddyBorg) : Except DiddyBorgError ℚ × DiddyBorg :=
  match raw_read self.dev self.read_buffer Command.GetB with
  | (.ok _, buffer) =>
    let direction := buffer.b1
    let power : ℚ := (buffer.b2 : ℚ) / PWM_MAX
    (if direction = CommandValue.Fwd.value then .ok power
     else if direction = CommandValue.Rev.value then .ok (-power)
     else .error .corruptedData,
     { self with read_buffer := buffer })
  | (.error e, buffer) => (.error e, { self with read_buffer := buffer })

/-- `get_motor2` (`diddyborg.rs` lines 284-297): same decode with `GetA`. -/
def get_motor2 (self : DiddyBorg) : Except DiddyBorgError ℚ × DiddyBorg :=
  match raw_read self.dev self.read_buffer Command.GetA with
  | (.ok _, buffer) =>
    let direction := buffer.b1
    let power : ℚ := (buffer.b2 : ℚ) / PWM_MAX
    (if direction = CommandValue.Fwd.value then .ok power
     else if direction = CommandValue.Rev.value then .ok (-power)
     else .error .corruptedData,
     { self with read_buffer := buffer })
  | (.error e, buffer) => (.error e, { self with read_buffer := buffer })

end Pbr

/-! The `diddyborg/src/diddyborg/mod.rs` draft of the driver. -/

namespace DMod

/-- `get_led` (`mod.rs` lines 142-144):
`raw_read(GetLed).map(|_| read_buffer[1] == On)` — every successful read
yields `Ok(byte1 == 1)`, never a `CorruptedData` error. -/
def get_led (self : DiddyBorg) : Except DiddyBorgError Bool × DiddyBorg :=
  match raw_read self.dev self.read_buffer Command.GetLed with
  | (.ok _, buffer) =>
    (.ok (buffer.b1 = CommandValue.On.value), { self with read_buffer := buffer })
  | (.error e, buffer) => (.error e, { self with read_buffer := buffer })

/-- `get_epo` (`mod.rs` lines 459-461). -/
def get_epo (self : DiddyBorg) : Except DiddyBorgError Bool × DiddyBorg :=
  match raw_read self.dev self.read_buffer Command.GetEpo with
  | (.ok _, buffer) =>
    (.ok (buffer.b1 = CommandValue.On.value), { self with read_buffer := buffer })
  | (.error e, buffer) => (.error e, { self with read_buffer := buffer })

/-- `get_epo_ignore` (`mod.rs` lines 519-521). -/
def get_epo_ignore (self : DiddyBorg) : Except DiddyBorgError Bool × DiddyBorg :=
  match raw_read self.dev self.read_buffer Command.GetEpoIgnore with
  | (.ok _, buffer) =>
    (.ok (buffer.b1 = CommandValue.On.value), { self with read_buffer := buffer })
  | (.error e, buffer) => (.error e, { self with read_buffer := buffer })

/-- `get_comms_failsafe` (`mod.rs` lines 582-584). -/
def get_comms_failsafe (self : DiddyBorg) : Except DiddyBorgError Bool × DiddyBorg :=
  match raw_read self.dev self.read_buffer Command.GetFailsafe with
  | (.ok _, buffer) =>
    (.ok (buffer.b1 = CommandValue.On.value), { self with read_buffer := buffer })
  | (.error e, buffer) => (.error e, { self with read_buffer := buffer })

/-- `get_drive_fault` (`mod.rs` lines 623-625). -/
def get_drive_fault (self : DiddyBorg) : Except DiddyBorgError Bool × DiddyBorg :=
  match raw_read self.dev self.read_buffer Command.GetDriveFault with
  | (.ok _, buffer) =>
    (.ok (buffer.b1 = CommandValue.On.value), { self with read_buffer := buffer })
  | (.error e, buffer) => (.error e, { self with read_buffer := buffer })

/-- `get_motor1` (`mod.rs` lines 232-244): read with `GetB`;
`power = byte2 as f32 / PWM_MAX`; byte 1 = Fwd ↦ `power`, and EVERY
other byte 1 value ↦ `-power` (no `CorruptedData` branch). -/
def get_motor1 (self : DiddyBorg) : Except DiddyBorgError ℚ × DiddyBorg :=
  match raw_read self.dev self.read_buffer Command.GetB with
  | (.ok _, buffer) =>
    let power : ℚ := (buffer.b2 : ℚ) / PWM_MAX
    (if buffer.b1 = CommandValue.Fwd.value then .ok power else .ok (-power),
     { self with read_buffer := buffer })
  | (.error e, buffer) => (.error e, { self with read_buffer := buffer })

/-- `get_motor2` (`mod.rs` lines 328-339): same decode with `GetA`. -/
def get_motor2 (self : DiddyBorg) : Except DiddyBorgError ℚ × DiddyBorg :=
  match raw_read self.dev self.read_buffer Command.GetA with
  | (.ok _, buffer) =>
    let power : ℚ := (buffer.b2 : ℚ) / PWM_MAX
    (if buffer.b1 = CommandValue.Fwd.value then .ok power else .ok (-power),
     { self with read_buffer := buffer })
  | (.error e, buffer) => (.error e, { self with read_buffer := buffer })

end DMod

/-- A loopback device for the encode/decode round trip: it answers a
`GetB` read with the response frame the peripheral stores after
receiving `set_motor1`'s frame — byte 0 echoes the opcode, byte 1 is
the Fwd/Rev value code matching the frame's opcode, byte 2 is the
frame's duty byte. -/
def loopback_dev (power : F32) : I2CDev :=
  let frame := set_motor1_frame power
  { writeResult := .ok ()
    readResult := .ok
      ⟨Command.GetB.value,
       if frame.headD 0 = Command.SetBFwd.value then CommandValue.Fwd.value
       else CommandValue.Rev.value,
       frame.getD 1 0,
       0⟩ }

/-- `decode(encode(p))`: send `set_motor1 p` to the loopback device and
read the value back with `get_motor1`. -/
def motor_roundtrip (power : F32) : Except DiddyBorgError ℚ :=
  (Pbr.get_motor1 { dev := loopback_dev power, read_buffer := Buf4.zero }).1

/-- Modelled from the spec: the power-to-duty conversion as the spec words
it — `duty = round(255 * clamp(|power|, 0, 1))`, truncated to an 8-bit
unsigned value (`clamp(|q|, 0, 1) = min |q| 1` since `|q| ≥ 0`).  Written
only to be compared with the source's `power_to_pwm`. -/
def duty_round_spec (q : ℚ) : ℕ := (round ((255 : ℚ) * min |q| 1)).toNat % 256

/-- A device whose flag read answers with byte 1 = 1 (the On code). -/
def dev_flag_on : I2CDev := { writeResult := .ok (), readResult := .ok ⟨2, 1, 0, 0⟩ }

/-- A device whose flag read answers with byte 1 = 5, outside the
value-code domain {0, 1, 2}. -/
def dev_flag_bad : I2CDev := { writeResult := .ok (), readResult := .ok ⟨2, 5, 0, 0⟩ }

/-- A device whose motor read answers Forward at full duty
(byte 1 = 1, byte 2 = 255). -/
def dev_motor_fwd : I2CDev := { writeResult := .ok (), readResult := .ok ⟨8, 1, 255, 0⟩ }

/-- A device whose motor read answers with direction byte 0, outside the
Fwd/Rev domain {1, 2}. -/
def dev_motor_dir0 : I2CDev := { writeResult := .ok (), readResult := .ok ⟨8, 0, 255, 0⟩ }

/-- A device reporting the expected identity byte `0x15`. -/
def dev_identity : I2CDev := { writeResult := .ok (), readResult := .ok ⟨0x99, 0x15, 0, 0⟩ }

/-- A device whose transport write fails. -/
def dev_write_fail : I2CDev := { writeResult := .error (), readResult := .ok ⟨1, 2, 3, 4⟩ }

end DiddyBorgRs

namespace DiddyBorgRs

/-! Helper lemmas about the embedded definitions. -/

/-- On a finite input the conversion computes
`⌊255 * min |q| 1⌋` — the cast `as u8` truncates toward zero. -/
lemma power_to_pwm_finite (q : ℚ) :
    power_to_pwm (F32.finite q) = (⌊(255 : ℚ) * min |q| 1⌋).toNat := by
  unfold power_to_pwm F32.abs F32.constMul F32.gt F32.toU8 PWM_MAX
  by_cases h : |q| ≤ 1
  · have h1 : ¬ ((255 : ℚ) * |q| > 255) := by nlinarith [abs_nonneg q]
    simp only [gt_iff_lt, decide_eq_true_eq, h1, if_false, min_eq_left h]
    have h2 : ⌊(255 : ℚ) * |q|⌋ ≤ 255 := by
      calc ⌊(255 : ℚ) * |q|⌋ ≤ ⌊(255 : ℚ)⌋ := Int.floor_le_floor (by nlinarith [abs_nonneg q])
        _ = 255 := by norm_num
    have h3 : (⌊(255 : ℚ) * |q|⌋).toNat ≤ 255 := by omega
    exact min_eq_right h3
  · have h1 : (255 : ℚ) * |q| > 255 := by nlinarith [abs_nonneg q]
    simp only [gt_iff_lt, decide_eq_true_eq, h1, if_true, min_eq_right (le_of_lt (not_le.mp h))]
    norm_num
    rfl

/-- The duty byte fits u8 for every input, specials included. -/
lemma power_to_pwm_le (p : F32) : power_to_pwm p ≤ 255 := by
  cases p with
  | finite q =>
    rw [power_to_pwm_finite]
    have h2 : ⌊(255 : ℚ) * min |q| 1⌋ ≤ 255 := by
      calc ⌊(255 : ℚ) * min |q| 1⌋ ≤ ⌊(255 : ℚ)⌋ := by
            refine Int.floor_le_floor ?_
            nlinarith [min_le_right |q| 1, le_min (abs_nonneg q) (zero_le_one (α := ℚ))]
        _ = 255 := by norm_num
    omega
  | nan => exact Nat.zero_le _
  | inf =>
    show (F32.finite PWM_MAX).toU8 ≤ 255
    simp [F32.toU8, PWM_MAX]
  | negInf =>
    show (F32.finite PWM_MAX).toU8 ≤ 255
    simp [F32.toU8, PWM_MAX]

/-- A read transaction on a device whose write and read both succeed
returns the device's 4 response bytes. -/
lemma raw_read_ok {dev : I2CDev} {b : Buf4} (hw : dev.writeResult = .ok ())
    (hr : dev.readResult = .ok b) (buf : Buf4) (cmd : Command) :
    raw_read dev buf cmd = (.ok (), b) := by
  simp [raw_read, DiddyBorg.read, hw, hr]

/-- A read transaction on a device whose write or read fails returns the
transport error with the buffer still in its zeroed state. -/
lemma raw_read_fail {dev : I2CDev}
    (h : dev.writeResult = .error () ∨ dev.readResult = .error ())
    (buf : Buf4) (cmd : Command) :
    raw_read dev buf cmd = (.error .i2c, Buf4.zero) := by
  rcases h with h | h
  · simp [raw_read, DiddyBorg.read, h, Buf4.zero]
  · rcases hw : dev.writeResult with u | u
    · simp [raw_read, DiddyBorg.read, hw, Buf4.zero]
    · simp [raw_read, DiddyBorg.read, hw, h, Buf4.zero]

/-- The source's Off-first decode chain equals the spec's On-first chain. -/
lemma flag_decode_comm (n : ℕ) :
    (if n = 0 then (.ok false : Except DiddyBorgError Bool)
     else if n = 1 then .ok true else .error .corruptedData) =
    (if n = 1 then .ok true else if n = 0 then .ok false else .error .corruptedData) := by
  by_cases h0 : n = 0
  · subst h0; simp
  · by_cases h1 : n = 1
    · subst h1; simp
    · simp [h0, h1]

/-- `F32.ge` on finite values is the rational comparison. -/
lemma ge_finite (q r : ℚ) : F32.ge (F32.finite q) (F32.finite r) = decide (q ≥ r) := rfl

/-- For `|q| ≤ 1` the decoded magnitude `pwm / 255` underestimates `|q|`
by less than one duty step. -/
lemma pwm_mag_bounds (q : ℚ) (h : |q| ≤ 1) :
    (power_to_pwm (F32.finite q) : ℚ) / 255 ≤ |q| ∧
    |q| - (power_to_pwm (F32.finite q) : ℚ) / 255 ≤ 1 / 255 := by
  rw [power_to_pwm_finite, min_eq_left h]
  have h0 : (0 : ℤ) ≤ ⌊(255 : ℚ) * |q|⌋ := Int.floor_nonneg.mpr (by positivity)
  have hcast : ((⌊(255 : ℚ) * |q|⌋.toNat : ℕ) : ℚ) = (⌊(255 : ℚ) * |q|⌋ : ℚ) := by
    exact_mod_cast congrArg (fun z : ℤ => (z : ℚ)) (Int.toNat_of_nonneg h0)
  rw [hcast]
  have hfl : (⌊(255 : ℚ) * |q|⌋ : ℚ) ≤ (255 : ℚ) * |q| := Int.floor_le _
  have hfg : (255 : ℚ) * |q| - 1 < (⌊(255 : ℚ) * |q|⌋ : ℚ) := Int.sub_one_lt_floor _
  constructor
  · linarith
  · linarith

/-- The loopback round trip decodes to the signed duty fraction. -/
lemma motor_roundtrip_eq (p : F32) :
    motor_roundtrip p =
      .ok (if F32.ge p (F32.finite 0) then ((power_to_pwm p : ℚ) / 255)
           else -((power_to_pwm p : ℚ) / 255)) := by
  by_cases hge : F32.ge p (F32.finite 0)
  · simp [motor_roundtrip, loopback_dev, set_motor1_frame, Pbr.get_motor1, raw_read,
      DiddyBorg.read, hge, Command.value, CommandValue.value, PWM_MAX]
  · simp [motor_roundtrip, loopback_dev, set_motor1_frame, Pbr.get_motor1, raw_read,
      DiddyBorg.read, hge, Command.value, CommandValue.value, PWM_MAX]

/-- A byte magnitude divided by 255 lies in `[0, 1]`. -/
lemma div255_bounds (n : ℕ) (hn : n ≤ 255) :
    0 ≤ ((n : ℚ) / 255) ∧ ((n : ℚ) / 255) ≤ 1 := by
  constructor
  · positivity
  · rw [div_le_one (by norm_num)]
    exact_mod_cast hn

end DiddyBorgRs

namespace DiddyBorgRs

/-! Claim theorems. -/

/-- Claim C1 (counterexample): at `p = 8/9` the code's duty byte is 226
(truncation of 226.66…) while the spec's `round(255 * clamp(|p|, 0, 1))`
is 227 — the conversion does not round. -/
theorem pwm_round_ce :
    power_to_pwm (F32.finite (8/9)) ≠ duty_round_spec (8/9) ∧
    power_to_pwm (F32.finite (8/9)) = 226 ∧
    duty_round_spec (8/9) = 227 := by
  have habs : |(8/9 : ℚ)| = 8/9 := by rw [abs_of_nonneg]; norm_num
  have hmin : min |(8/9 : ℚ)| 1 = 8/9 := by rw [habs, min_eq_left (by norm_num)]
  have h1 : power_to_pwm (F32.finite (8/9)) = 226 := by
    rw [power_to_pwm_finite, hmin]
    have h2 : ⌊(255 : ℚ) * (8/9)⌋ = 226 := by
      rw [Int.floor_eq_iff]
      constructor
      · norm_num
      · norm_num
    rw [h2]; rfl
  have h3 : duty_round_spec (8/9) = 227 := by
    rw [duty_round_spec, hmin, round_eq]
    have h4 : ⌊(255 : ℚ) * (8/9) + 1/2⌋ = 227 := by
      rw [Int.floor_eq_iff]
      constructor
      · norm_num
      · norm_num
    rw [h4]; rfl
  refine ⟨?_, h1, h3⟩
  rw [h1, h3]
  norm_num

/-- Claim C1 (amended): for every finite f32 power `p` the conversion
returns `⌊255 * clamp(|p|, 0, 1)⌋` — truncation toward zero, not
rounding; in particular for `|p| ≤ 1` the duty byte is `⌊255 * |p|⌋`. -/
theorem power_to_pwm_truncates (q : ℚ) :
    power_to_pwm (F32.finite q) = (⌊(255 : ℚ) * min |q| 1⌋).toNat ∧
    (|q| ≤ 1 → power_to_pwm (F32.finite q) = (⌊(255 : ℚ) * |q|⌋).toNat) :=
  ⟨power_to_pwm_finite q, fun h => by rw [power_to_pwm_finite, min_eq_left h]⟩

/-- Witness for C1's amended theorem at `p = 1/2`. -/
theorem power_to_pwm_truncates_witness :
    power_to_pwm (F32.finite (1/2)) = (⌊(255 : ℚ) * |(1/2 : ℚ)|⌋).toNat :=
  (power_to_pwm_truncates (1/2)).2
    (by rw [abs_of_nonneg (by norm_num : (0 : ℚ) ≤ 1/2)]; norm_num)

/-- Claim C2 (amended): on every successful 4-byte read, the five
boolean-flag operations of the `picoborgrev` draft return `Ok(true)` when
byte 1 is the On code (1), `Ok(false)` when it is the Off code (0), and a
`CorruptedData` error otherwise; the `diddyborg/mod.rs` draft's five
operations instead return `Ok(byte1 == 1)`, silently defaulting every
non-On byte to `false`. -/
theorem bool_flag_decode (s : DiddyBorg) (b : Buf4)
    (hw : s.dev.writeResult = .ok ()) (hr : s.dev.readResult = .ok b) :
    ((Pbr.get_led s).1 =
      (if b.b1 = 1 then .ok true else if b.b1 = 0 then .ok false
       else .error .corruptedData)) ∧
    ((Pbr.get_epo s).1 =
      (if b.b1 = 1 then .ok true else if b.b1 = 0 then .ok false
       else .error .corruptedData)) ∧
    ((Pbr.get_epo_ignore s).1 =
      (if b.b1 = 1 then .ok true else if b.b1 = 0 then .ok false
       else .error .corruptedData)) ∧
    ((Pbr.get_comms_failsafe s).1 =
      (if b.b1 = 1 then .ok true else if b.b1 = 0 then .ok false
       else .error .corruptedData)) ∧
    ((Pbr.get_drive_fault s).1 =
      (if b.b1 = 1 then .ok true else if b.b1 = 0 then .ok false
       else .error .corruptedData)) ∧
    ((DMod.get_led s).1 = .ok (decide (b.b1 = 1))) ∧
    ((DMod.get_epo s).1 = .ok (decide (b.b1 = 1))) ∧
    ((DMod.get_epo_ignore s).1 = .ok (decide (b.b1 = 1))) ∧
    ((DMod.get_comms_failsafe s).1 = .ok (decide (b.b1 = 1))) ∧
    ((DMod.get_drive_fault s).1 = .ok (decide (b.b1 = 1))) := by
  refine ⟨?_, ?_, ?_, ?_, ?_, ?_, ?_, ?_, ?_, ?_⟩ <;>
    simp only [Pbr.get_led, Pbr.get_epo, Pbr.get_epo_ignore, Pbr.get_comms_failsafe,
      Pbr.get_drive_fault, DMod.get_led, DMod.get_epo, DMod.get_epo_ignore,
      DMod.get_comms_failsafe, DMod.get_drive_fault, raw_read_ok hw hr,
      CommandValue.value] <;>
    first
      | exact flag_decode_comm b.b1
      | rfl

/-- Witness for C2's theorem on a device answering byte 1 = 1. -/
theorem bool_flag_decode_witness :
    (Pbr.get_led { dev := dev_flag_on, read_buffer := Buf4.zero }).1 =
      (if (1 : ℕ) = 1 then .ok true else if (1 : ℕ) = 0 then .ok false
       else .error .corruptedData) :=
  (bool_flag_decode { dev := dev_flag_on, read_buffer := Buf4.zero } ⟨2, 1, 0, 0⟩ rfl rfl).1

/-- Claim C2 (counterexample): the `diddyborg/mod.rs` draft's `get_led`
answers `Ok(false)` — a silent default, not a `CorruptedData` error — on
a response whose byte 1 is 5, a value outside {0, 1}. -/
theorem bool_flag_silent_default_ce :
    (DMod.get_led { dev := dev_flag_bad, read_buffer := Buf4.zero }).1 = .ok false ∧
    (DMod.get_led { dev := dev_flag_bad, read_buffer := Buf4.zero }).1 ≠
      .error .corruptedData ∧
    (5 : ℕ) ≠ 0 ∧ (5 : ℕ) ≠ 1 := by
  refine ⟨?_, ?_, by norm_num, by norm_num⟩ <;>
    simp [DMod.get_led, raw_read, DiddyBorg.read, dev_flag_bad, CommandValue.value]

/-- Claim C3 (amended): on every successful 4-byte read, the
`picoborgrev` draft's motor getters return `+byte2/255` when byte 1 is
the Forward code (1), `-byte2/255` when it is the Reverse code (2), and
`CorruptedData` otherwise; the `diddyborg/mod.rs` draft's getters return
`+byte2/255` for byte 1 = 1 and `-byte2/255` for every other byte 1
value, with no error branch. -/
theorem motor_decode (s : DiddyBorg) (b : Buf4)
    (hw : s.dev.writeResult = .ok ()) (hr : s.dev.readResult = .ok b) :
    ((Pbr.get_motor1 s).1 =
      (if b.b1 = 1 then .ok ((b.b2 : ℚ) / 255)
       else if b.b1 = 2 then .ok (-((b.b2 : ℚ) / 255))
       else .error .corruptedData)) ∧
    ((Pbr.get_motor2 s).1 =
      (if b.b1 = 1 then .ok ((b.b2 : ℚ) / 255)
       else if b.b1 = 2 then .ok (-((b.b2 : ℚ) / 255))
       else .error .corruptedData)) ∧
    ((DMod.get_motor1 s).1 =
      (if b.b1 = 1 then .ok ((b.b2 : ℚ) / 255) else .ok (-((b.b2 : ℚ) / 255)))) ∧
    ((DMod.get_motor2 s).1 =
      (if b.b1 = 1 then .ok ((b.b2 : ℚ) / 255) else .ok (-((b.b2 : ℚ) / 255)))) := by
  refine ⟨?_, ?_, ?_, ?_⟩ <;>
    simp only [Pbr.get_motor1, Pbr.get_motor2, DMod.get_motor1, DMod.get_motor2,
      raw_read_ok hw hr, CommandValue.value, PWM_MAX]

/-- Witness for C3's theorem on a Forward full-duty response. -/
theorem motor_decode_witness :
    (Pbr.get_motor1 { dev := dev_motor_fwd, read_buffer := Buf4.zero }).1 =
      (if (1 : ℕ) = 1 then .ok (((255 : ℕ) : ℚ) / 255)
       else if (1 : ℕ) = 2 then .ok (-(((255 : ℕ) : ℚ) / 255))
       else .error .corruptedData) :=
  (motor_decode { dev := dev_motor_fwd, read_buffer := Buf4.zero } ⟨8, 1, 255, 0⟩ rfl rfl).1

/-- Claim C3 (counterexample): the `diddyborg/mod.rs` draft's
`get_motor1` answers `Ok(-1)` — not a `CorruptedData` error — on a
response with direction byte 0, outside {1, 2}. -/
theorem motor_decode_ce :
    (DMod.get_motor1 { dev := dev_motor_dir0, read_buffer := Buf4.zero }).1 = .ok (-1 : ℚ) ∧
    (DMod.get_motor1 { dev := dev_motor_dir0, read_buffer := Buf4.zero }).1 ≠
      .error .corruptedData ∧
    (0 : ℕ) ≠ 1 ∧ (0 : ℕ) ≠ 2 := by
  refine ⟨?_, ?_, by norm_num, by norm_num⟩ <;>
    simp [DMod.get_motor1, raw_read, DiddyBorg.read, dev_motor_dir0,
      CommandValue.value, PWM_MAX]

/-- Claim C4: construction returns a session exactly when the identity
read yields byte 1 = `0x15`; any other identity byte yields the
identity-mismatch error and no session, and a transport failure during
the handshake (failed open, failed write, or failed read) propagates as
an error. -/
theorem new_identity_handshake (dev : I2CDev) :
    (∀ b : Buf4, dev.writeResult = .ok () → dev.readResult = .ok b →
      DiddyBorg.new (.ok dev) =
        (if b.b1 = I2C_ID_PICOBORG_REV
         then .ok { dev := dev, read_buffer := Buf4.zero }
         else .error .notFound)) ∧
    (dev.writeResult = .error () → DiddyBorg.new (.ok dev) = .error .i2c) ∧
    (dev.readResult = .error () → DiddyBorg.new (.ok dev) = .error .i2c) ∧
    DiddyBorg.new (.error ()) = .error .i2c := by
  refine ⟨?_, ?_, ?_, rfl⟩
  · intro b hw hr
    simp [DiddyBorg.new, get_diddyborg_id, DiddyBorg.read, hw, hr]
  · intro hw
    simp [DiddyBorg.new, get_diddyborg_id, DiddyBorg.read, hw]
  · intro hr
    rcases hw : dev.writeResult with u | u
    · simp [DiddyBorg.new, get_diddyborg_id, DiddyBorg.read, hw]
    · simp [DiddyBorg.new, get_diddyborg_id, DiddyBorg.read, hw, hr]

/-- Witness for C4's theorem on a device reporting identity `0x15`. -/
theorem new_identity_handshake_witness :
    DiddyBorg.new (.ok dev_identity) =
      (if (0x15 : ℕ) = I2C_ID_PICOBORG_REV
       then .ok { dev := dev_identity, read_buffer := Buf4.zero }
       else .error .notFound) :=
  (new_identity_handshake dev_identity).1 ⟨0x99, 0x15, 0, 0⟩ rfl rfl

/-- Claim C5: for every finite power `p` with `|p| ≤ 1`, decoding the
frame produced by `set_motor1` (read back through `get_motor1`'s decode
rule) keeps the direction of `p` — with `p = 0` encoded via the Forward
opcode — and the decoded magnitude is within `1/255` of `|p|`. -/
theorem encode_decode_roundtrip :
    (set_motor1_frame (F32.finite 0)).headD 0 = Command.SetBFwd.value ∧
    ∀ q : ℚ, |q| ≤ 1 →
      ((0 ≤ q → (set_motor1_frame (F32.finite q)).headD 0 = Command.SetBFwd.value) ∧
       (q < 0 → (set_motor1_frame (F32.finite q)).headD 0 = Command.SetBRev.value) ∧
       ∃ v : ℚ, motor_roundtrip (F32.finite q) = .ok v ∧
         (0 ≤ q → 0 ≤ v) ∧ (q < 0 → v ≤ 0) ∧ |abs v - abs q| ≤ 1 / 255) := by
  constructor
  · simp [set_motor1_frame, ge_finite]
  intro q hq
  obtain ⟨hle, hdist⟩ := pwm_mag_bounds q hq
  set m : ℚ := (power_to_pwm (F32.finite q) : ℚ) / 255 with hm
  have hm0 : 0 ≤ m := by positivity
  have habs : |m - abs q| ≤ 1 / 255 := by
    rw [abs_le]
    constructor
    · linarith
    · linarith
  by_cases h0 : 0 ≤ q
  · refine ⟨fun _ => ?_, fun hneg => absurd h0 (not_le.mpr hneg), m, ?_, fun _ => hm0,
      fun hneg => absurd h0 (not_le.mpr hneg), ?_⟩
    · simp [set_motor1_frame, ge_finite, h0]
    · rw [motor_roundtrip_eq]
      simp [ge_finite, h0]
    · rwa [abs_of_nonneg hm0]
  · refine ⟨fun hpos => absurd hpos h0, fun _ => ?_, -m, ?_, fun hpos => absurd hpos h0,
      fun _ => by linarith, ?_⟩
    · simp [set_motor1_frame, ge_finite, h0]
    · rw [motor_roundtrip_eq]
      simp [ge_finite, h0]
    · rwa [abs_neg, abs_of_nonneg hm0]

/-- Witness for C5's theorem at `p = 3/4` (duty 191, decoded 191/255). -/
theorem encode_decode_roundtrip_witness :
    (0 ≤ (3/4 : ℚ) → (set_motor1_frame (F32.finite (3/4))).headD 0 = Command.SetBFwd.value) ∧
    ((3/4 : ℚ) < 0 → (set_motor1_frame (F32.finite (3/4))).headD 0 = Command.SetBRev.value) ∧
    ∃ v : ℚ, motor_roundtrip (F32.finite (3/4)) = .ok v ∧
      (0 ≤ (3/4 : ℚ) → 0 ≤ v) ∧ ((3/4 : ℚ) < 0 → v ≤ 0) ∧
      |abs v - abs (3/4 : ℚ)| ≤ 1 / 255 :=
  encode_decode_roundtrip.2 (3/4)
    (by rw [abs_of_nonneg (by norm_num : (0 : ℚ) ≤ 3/4)]; norm_num)

/-- Claim C6: every finite power of magnitude above 1, and both
infinities, encode to the full-scale duty byte 255; the conversion is
total and never rejects an out-of-range input. -/
theorem pwm_clamp_total :
    (∀ q : ℚ, 1 < |q| → power_to_pwm (F32.finite q) = 255) ∧
    power_to_pwm F32.inf = 255 ∧ power_to_pwm F32.negInf = 255 := by
  refine ⟨?_, ?_, ?_⟩
  · intro q hq
    rw [power_to_pwm_finite, min_eq_right (le_of_lt hq)]
    norm_num
    rfl
  · show (F32.finite PWM_MAX).toU8 = 255
    simp [F32.toU8, PWM_MAX]
  · show (F32.finite PWM_MAX).toU8 = 255
    simp [F32.toU8, PWM_MAX]

/-- Witness for C6's theorem at `p = 2`. -/
theorem pwm_clamp_total_witness : power_to_pwm (F32.finite 2) = 255 :=
  pwm_clamp_total.1 2 (by rw [abs_of_nonneg (by norm_num : (0 : ℚ) ≤ 2)]; norm_num)

/-- Claim C7: the opcode-to-byte map is injective over the whole
enumeration, and the value-code map sends Off to 0, On to 1, Fwd to 1
and Rev to 2, the On/Fwd overlap being its only collision. -/
theorem command_byte_mapping :
    (∀ c1 c2 : Command, c1.value = c2.value → c1 = c2) ∧
    CommandValue.Off.value = 0 ∧ CommandValue.On.value = 1 ∧
    CommandValue.Fwd.value = 1 ∧ CommandValue.Rev.value = 2 ∧
    (∀ v1 v2 : CommandValue, v1.value = v2.value →
      v1 = v2 ∨ (v1 = .On ∧ v2 = .Fwd) ∨ (v1 = .Fwd ∧ v2 = .On)) := by
  refine ⟨by decide, rfl, rfl, rfl, rfl, by decide⟩

/-- Witness for C7's theorem: equal bytes at equal opcodes, and the
On/Fwd byte collision resolved as the documented overlap. -/
theorem command_byte_mapping_witness :
    Command.SetLed = Command.SetLed ∧
    (CommandValue.On = CommandValue.Fwd ∨
     (CommandValue.On = CommandValue.On ∧ CommandValue.Fwd = CommandValue.Fwd) ∨
     (CommandValue.On = CommandValue.Fwd ∧ CommandValue.Fwd = CommandValue.On)) :=
  ⟨command_byte_mapping.1 .SetLed .SetLed rfl,
   command_byte_mapping.2.2.2.2.2 .On .Fwd rfl⟩

/-- Claim C8: a read transaction zeroes the 4-byte buffer first, then
writes and reads; a failure of either transport step yields a transport
error with every buffer byte still zero (no stale bytes survive), and a
success fills the buffer with the freshly read bytes. -/
theorem raw_read_zeroed (dev : I2CDev) (buf : Buf4) (cmd : Command) :
    ((dev.writeResult = .error () ∨ dev.readResult = .error ()) →
      raw_read dev buf cmd = (.error .i2c, Buf4.zero)) ∧
    (∀ b : Buf4, dev.writeResult = .ok () → dev.readResult = .ok b →
      raw_read dev buf cmd = (.ok (), b)) :=
  ⟨fun h => raw_read_fail h buf cmd, fun _ hw hr => raw_read_ok hw hr buf cmd⟩

/-- Witness for C8's theorem: a failed write on a stale buffer
`⟨9, 9, 9, 9⟩` leaves the all-zero buffer. -/
theorem raw_read_zeroed_witness :
    raw_read dev_write_fail ⟨9, 9, 9, 9⟩ Command.GetLed = (.error .i2c, Buf4.zero) :=
  (raw_read_zeroed dev_write_fail ⟨9, 9, 9, 9⟩ Command.GetLed).1 (Or.inl rfl)

/-- Claim C9: every value successfully returned by a motor getter — in
either draft — lies in `[-1, 1]`, for every 4-byte response whose
magnitude byte is a valid u8. -/
theorem motor_value_in_unit_interval (s : DiddyBorg) (b : Buf4)
    (hw : s.dev.writeResult = .ok ()) (hr : s.dev.readResult = .ok b)
    (hb : b.b2 ≤ 255) :
    (∀ q : ℚ, (Pbr.get_motor1 s).1 = .ok q → -1 ≤ q ∧ q ≤ 1) ∧
    (∀ q : ℚ, (Pbr.get_motor2 s).1 = .ok q → -1 ≤ q ∧ q ≤ 1) ∧
    (∀ q : ℚ, (DMod.get_motor1 s).1 = .ok q → -1 ≤ q ∧ q ≤ 1) ∧
    (∀ q : ℚ, (DMod.get_motor2 s).1 = .ok q → -1 ≤ q ∧ q ≤ 1) := by
  obtain ⟨hm0, hm1⟩ := div255_bounds b.b2 hb
  refine ⟨?_, ?_, ?_, ?_⟩ <;>
    · intro q hq
      simp only [Pbr.get_motor1, Pbr.get_motor2, DMod.get_motor1, DMod.get_motor2,
        raw_read_ok hw hr, CommandValue.value, PWM_MAX] at hq
      split_ifs at hq <;>
        simp only [Except.ok.injEq] at hq <;>
        first
          | (subst hq; constructor <;> linarith)
          | cases hq

/-- Witness for C9's theorem: a full-duty Forward response decodes to 1,
inside the interval. -/
theorem motor_value_in_unit_interval_witness : -1 ≤ (1 : ℚ) ∧ (1 : ℚ) ≤ 1 :=
  (motor_value_in_unit_interval { dev := dev_motor_fwd, read_buffer := Buf4.zero }
      ⟨8, 1, 255, 0⟩ rfl rfl (by norm_num)).1 1
    (by simp [Pbr.get_motor1, raw_read, DiddyBorg.read, dev_motor_fwd,
          CommandValue.value, PWM_MAX])

/-- Claim C10: the motor-setting encoders are total over all f32 inputs:
the duty byte is always at most 255, and a NaN power selects the
Reverse-direction opcode (NaN ≥ 0 is false) with duty byte 0 (the cast
sends NaN to 0). -/
theorem set_motor_totality :
    (∀ p : F32, (set_motor1_frame p).getD 1 0 ≤ 255 ∧
                (set_motor2_frame p).getD 1 0 ≤ 255 ∧
                (set_motors_frame p).getD 1 0 ≤ 255) ∧
    set_motor1_frame F32.nan = [Command.SetBRev.value, 0] ∧
    set_motor2_frame F32.nan = [Command.SetARev.value, 0] ∧
    set_motors_frame F32.nan = [Command.SetAllRev.value, 0] := by
  refine ⟨?_, rfl, rfl, rfl⟩
  intro p
  refine ⟨?_, ?_, ?_⟩ <;>
    simp [set_motor1_frame, set_motor2_frame, set_motors_frame, power_to_pwm_le p]

end DiddyBorgRs
